import Mathlib

/-!
Shallow embedding of the batched multi-destination ClickHouse write path of
akvorado (outlet/clickhouse/worker.go): the flush coordinator
(FinalizeAndSend / Flush), the per-destination write-with-retry
(flushSingleDestination) and the connect/failover algorithm
(connectDestination), together with the metric-facing observations the code
makes. Machine integers are modelled as Nat (Go uint / non-negative int);
time.Time values are Nat nanoseconds with 0 standing for the Go zero time;
time.Duration values are Nat nanoseconds saturating at the int64 maximum,
as the Go time.Time.Sub does. Network and scheduling nondeterminism (dial,
ping and send outcomes, the random server permutation, context
cancellation) is supplied by oracle parameters; unbounded retry loops take
a fuel bound, with a distinct outcome when fuel runs out while the Go loop
would still be retrying.
-/

namespace Akvorado

/-- Largest Go time.Duration, in nanoseconds (int64 maximum). -/
def maxDuration : Nat := 2 ^ 63 - 1

/-- Go time.Time.Sub on our Nat timestamps: the difference saturates at the
int64 maximum duration (both arguments are non-negative wall times with 0
standing for the zero time, so the result is never negative). -/
def goSub (t u : Nat) : Nat := min (t - u) maxDuration

/-- outlet/clickhouse Configuration: the fields worker.go reads.
MaximumWaitTime is in nanoseconds (a Go time.Duration). -/
structure Configuration where
  MaximumBatchSize : Nat
  MaximumWaitTime : Nat
  deriving Repr, DecidableEq

/-- ch.Setting as used for the async-insert settings block. -/
structure Setting where
  Key : String
  Value : String
  Important : Bool := false
  deriving Repr, DecidableEq

/-- Go time.Duration.Milliseconds: truncated division of nanoseconds. -/
def durationMilliseconds (ns : Nat) : Nat := ns / 1000000

/-- Modelled from the spec: the Batch Buffer collaborator
(schema.FlowMessage, outside the provided sources). The spec specifies it
at its interface boundary: FinalizeBatch, RecordCount, SerializeForInsert
and Clear; the serialized form is an opaque byte-bearing object that the
core never constructs or decodes. We model the records as opaque Nat and
the serialized payload as the record list itself. -/
structure FlowMessage where
  records : List Nat
  deriving Repr, DecidableEq

/-- schema.FlowMessage.FlowCount: the record count. -/
def FlowMessage.FlowCount (bf : FlowMessage) : Nat := bf.records.length

/-- Modelled from the spec: SerializeForInsert / ClickHouseProtoInput is a
pure read of the already-finalized buffer; it never mutates the buffer. -/
def FlowMessage.ClickHouseProtoInput (bf : FlowMessage) : List Nat := bf.records

/-- schema.FlowMessage.Clear: resets the record count to zero. -/
def FlowMessage.Clear (_ : FlowMessage) : FlowMessage := ⟨[]⟩

/-- Modelled from the spec: FinalizeBatch seals the batch; the buffer we
model already holds the final records, so finalization does not change the
count or the serialized form. -/
def FlowMessage.Finalize (bf : FlowMessage) : FlowMessage := bf

/-- destinationWriter (worker.go): one ClickHouse destination with its live
connection (an Option: absent or the index of the connected server), its
candidate server list, async-insert settings, configuration and retry
ceiling (0 = unbounded). -/
structure DestinationWriter where
  name : String
  conn : Option Nat
  servers : List String
  asyncSettings : List Setting
  config : Configuration
  maxRetries : Nat
  deriving Repr, DecidableEq

/-- The async-insert settings block built in NewWorker for a destination:
async_insert=1, wait_for_async_insert=1, and a busy timeout of the
destination MaximumWaitTime in milliseconds. -/
def mkAsyncSettings (cfg : Configuration) : List Setting :=
  [ { Key := "async_insert", Value := "1", Important := true },
    { Key := "wait_for_async_insert", Value := "1", Important := true },
    { Key := "async_insert_busy_timeout_max_ms",
      Value := toString (durationMilliseconds cfg.MaximumWaitTime) } ]

/-- DestinationDependency as normalized by the component: name, server
list (from ChGoOptions), retry ceiling (from MaxRetries) and the
destination configuration. -/
structure DestinationDependency where
  name : String
  servers : List String
  maxRetries : Nat
  config : Configuration
  deriving Repr, DecidableEq

/-- The per-destination construction NewWorker performs: a fresh writer
with no live connection and the async settings block. -/
def mkDestinationWriter (dep : DestinationDependency) : DestinationWriter :=
  { name := dep.name
    conn := none
    servers := dep.servers
    asyncSettings := mkAsyncSettings dep.config
    config := dep.config
    maxRetries := dep.maxRetries }

/-- realComponent.primaryConfig: the first destination configuration, or
the zero Configuration when there is none. -/
def primaryConfigOf (dests : List DestinationDependency) : Configuration :=
  match dests with
  | [] => { MaximumBatchSize := 0, MaximumWaitTime := 0 }
  | d :: _ => d.config

/-- realWorker: the flush coordinator state. last is the last-flush
timestamp (0 = Go zero time, as left by NewWorker). The primary
configuration is the component field the worker reads through
primaryConfig(). -/
structure RealWorker where
  bf : FlowMessage
  last : Nat
  primary : Configuration
  destWriters : List DestinationWriter
  deriving Repr, DecidableEq

/-- NewWorker: builds a worker over the component destinations; the
last-flush timestamp is the Go zero value. -/
def NewWorker (dests : List DestinationDependency) (bf : FlowMessage) : RealWorker :=
  { bf := bf
    last := 0
    primary := primaryConfigOf dests
    destWriters := dests.map mkDestinationWriter }

/-- WorkerStatus (worker.go). -/
inductive WorkerStatus
  | WorkerStatusOK
  | WorkerStatusOverloaded
  | WorkerStatusUnderloaded
  deriving Repr, DecidableEq

/-! ## Connect algorithm (connectDestination) -/

/-- The error connectDestination can observe for one candidate server:
a dial failure or a liveness-probe failure. -/
inductive ConnectError
  | dialErr (server : Nat)
  | probeErr (server : Nat)
  deriving Repr, DecidableEq

/-- Result of connectDestination: the (possibly absent) live connection
afterwards, the returned error (none = nil), and which servers were
dialed, in order. -/
structure ConnectResult where
  conn : Option Nat
  err : Option ConnectError
  dialed : List Nat
  deriving Repr, DecidableEq

/-- The server loop of connectDestination: walk the permuted candidate
list; dial each, then liveness-probe; the first server passing both
becomes the connection with a nil error; when the list is exhausted the
most recent error is returned. dialOK and probeOK are the network oracle,
indexed by server position in the original server list. -/
def tryServers (dialOK probeOK : Nat → Bool) : List Nat → Option ConnectError → ConnectResult
  | [], lastErr => { conn := none, err := lastErr, dialed := [] }
  | idx :: rest, _ =>
    if dialOK idx then
      if probeOK idx then
        { conn := some idx, err := none, dialed := [idx] }
      else
        let r := tryServers dialOK probeOK rest (some (ConnectError.probeErr idx))
        { r with dialed := idx :: r.dialed }
    else
      let r := tryServers dialOK probeOK rest (some (ConnectError.dialErr idx))
      { r with dialed := idx :: r.dialed }

/-- connectDestination: if a live connection exists and its ping succeeds,
reuse it with no dial; otherwise (absent or unhealthy, the unhealthy one
being closed) walk the permuted server list. livePing is the oracle for
pinging an existing connection; perm is the permutation rand.Perm
produced of the server indices. -/
def connectDestination (conn : Option Nat) (livePing : Nat → Bool)
    (dialOK probeOK : Nat → Bool) (perm : List Nat) : ConnectResult :=
  match conn with
  | some c =>
    if livePing c then { conn := some c, err := none, dialed := [] }
    else tryServers dialOK probeOK perm none
  | none => tryServers dialOK probeOK perm none

/-! ## Write with retry (flushSingleDestination) -/

/-- The network and scheduling oracle for one destination task, indexed by
the attempt number (attempts start at 1, as in the Go counter): ping of an
existing connection, dial and probe per server index, the random
permutation rand.Perm produced, send success, and whether the execution
scope is observed cancelled when backoff checks after a failed attempt. -/
structure DestOracle where
  livePing : Nat → Nat → Bool
  dialOK : Nat → Nat → Bool
  probeOK : Nat → Nat → Bool
  perm : Nat → List Nat
  sendOK : Nat → Bool
  cancelledAfter : Nat → Bool

/-- How one write-with-retry call ends: success; permanent retry
exhaustion; context cancellation during backoff; a nil-pointer
dereference of an absent connection; or still retrying when the fuel
bound of the model runs out (the Go loop would keep going). -/
inductive RunOutcome
  | success
  | retryExhausted
  | cancelled
  | panicked
  | stillRetrying
  deriving Repr, DecidableEq, Inhabited

/-- The mutable state threaded through the retry loop: the Go attempts
counter, the per-phase error-metric counters, the write counters, and the
destination connection being mutated. -/
structure RetryAcc where
  attempts : Nat
  writeAttempts : Nat
  successfulWrites : Nat
  connectErrors : Nat
  sendErrors : Nat
  conn : Option Nat
  deriving Repr, DecidableEq

/-- The backoff.Retry loop of flushSingleDestination. Each iteration is
one invocation of the retried operation: increment attempts; when the
retry ceiling is non-zero and exceeded, give up permanently
(RetryExhausted); otherwise connect (a connect error is retryable and
counts towards the connect error metric); with a connection, perform one
send — a send error closes the connection, counts towards the send error
metric and is retryable. After any retryable failure, a cancelled
execution scope ends the call with the cancellation outcome; otherwise
backoff sleeps and the loop continues. A successful connectDestination
that nevertheless leaves the connection absent (empty server list) makes
the subsequent send dereference nil. -/
def retryLoop (maxRetries : Nat) (o : DestOracle) : Nat → RetryAcc → RetryAcc × RunOutcome
  | 0, st => (st, RunOutcome.stillRetrying)
  | fuel + 1, st =>
    let a := st.attempts + 1
    if 0 < maxRetries ∧ maxRetries < a then
      ({ st with attempts := a }, RunOutcome.retryExhausted)
    else
      let cres := connectDestination st.conn (o.livePing a) (o.dialOK a) (o.probeOK a) (o.perm a)
      match cres.err with
      | some _ =>
        let st1 : RetryAcc :=
          { st with attempts := a, connectErrors := st.connectErrors + 1, conn := cres.conn }
        if o.cancelledAfter a then (st1, RunOutcome.cancelled)
        else retryLoop maxRetries o fuel st1
      | none =>
        match cres.conn with
        | none => ({ st with attempts := a, conn := none }, RunOutcome.panicked)
        | some c =>
          if o.sendOK a then
            ({ st with
                attempts := a, conn := some c,
                writeAttempts := st.writeAttempts + 1,
                successfulWrites := st.successfulWrites + 1 }, RunOutcome.success)
          else
            let st1 : RetryAcc :=
              { st with
                  attempts := a, conn := none,
                  writeAttempts := st.writeAttempts + 1,
                  sendErrors := st.sendErrors + 1 }
            if o.cancelledAfter a then (st1, RunOutcome.cancelled)
            else retryLoop maxRetries o fuel st1

/-- Everything observable about one flush-to-one-destination call: the
outcome, the Go attempts counter, how many sends were performed and how
many succeeded, the error- and retries-exceeded-metric increments, the
connection left behind, the insert settings selected, and the serialized
payload handed to the send. -/
structure RunStats where
  outcome : RunOutcome
  attempts : Nat
  writeAttempts : Nat
  successfulWrites : Nat
  connectErrors : Nat
  sendErrors : Nat
  retriesExceededInc : Nat
  conn : Option Nat
  settings : List Setting
  payload : List Nat
  deriving Repr, DecidableEq, Inhabited

/-- flushSingleDestination: select the insert mode from the current batch
size against the destination own threshold (async settings iff the count
is at or below MaximumBatchSize / K, K the configured divisor
minimumBatchSizeDivider), then run the retry loop starting from the
destination current connection. -/
def flushSingleDestination (bf : FlowMessage) (K : Nat) (dw : DestinationWriter)
    (o : DestOracle) (fuel : Nat) : RunStats :=
  let settings :=
    if bf.FlowCount ≤ dw.config.MaximumBatchSize / K then dw.asyncSettings else []
  let r := retryLoop dw.maxRetries o fuel
    { attempts := 0, writeAttempts := 0, successfulWrites := 0,
      connectErrors := 0, sendErrors := 0, conn := dw.conn }
  { outcome := r.2
    attempts := r.1.attempts
    writeAttempts := r.1.writeAttempts
    successfulWrites := r.1.successfulWrites
    connectErrors := r.1.connectErrors
    sendErrors := r.1.sendErrors
    retriesExceededInc := if r.2 = RunOutcome.retryExhausted then 1 else 0
    conn := r.1.conn
    settings := settings
    payload := bf.ClickHouseProtoInput }

/-! ## Flush and FinalizeAndSend -/

/-- A point in the serialized observation of one flush: the settlement of
one destination task, or the buffer clear. -/
inductive FlushEvent
  | destEvent (destIdx : Nat)
  | clearEvent
  deriving Repr, DecidableEq

/-- One retry call per destination writer, in writer order; oracle i
drives destination i. -/
def runAll (bf : FlowMessage) (K : Nat) (o : Nat → DestOracle) (fuel : Nat) :
    Nat → List DestinationWriter → List RunStats
  | _, [] => []
  | i, dw :: rest =>
    flushSingleDestination bf K dw (o i) fuel :: runAll bf K o fuel (i + 1) rest

/-- What a flush leaves behind: the worker (buffer and connections
updated), the per-destination run results, and the serialized event
trace. The Go Flush returns nothing to its caller; runs and trace are
observations for the specification only. -/
structure FlushResult where
  worker : RealWorker
  runs : List RunStats
  trace : List FlushEvent
  deriving Repr, DecidableEq

/-- Flush: a no-op on an empty buffer; otherwise run every destination
task against the same buffer, wait for all of them (order is the
completion order the scheduler happened to produce, an arbitrary
parameter), and only then clear the buffer. No destination error is
returned to the caller. -/
def Flush (w : RealWorker) (K : Nat) (o : Nat → DestOracle) (order : List Nat)
    (fuel : Nat) : FlushResult :=
  if w.bf.FlowCount = 0 then { worker := w, runs := [], trace := [] }
  else
    let runs := runAll w.bf K o fuel 0 w.destWriters
    { worker :=
        { w with
          bf := w.bf.Clear
          destWriters := (w.destWriters.zip runs).map fun p => { p.1 with conn := p.2.conn } }
      runs := runs
      trace := order.map FlushEvent.destEvent ++ [FlushEvent.clearEvent] }

/-- Everything FinalizeAndSend produces: the updated worker, the returned
status, whether the flush branch was taken, the metric observations
(wait-time histogram, overloaded/underloaded counters), and the flush
observations. -/
structure SendResult where
  worker : RealWorker
  status : WorkerStatus
  flushed : Bool
  waitTimeObserved : Bool
  overloadedInc : Bool
  underloadedInc : Bool
  runs : List RunStats
  trace : List FlushEvent
  deriving Repr, DecidableEq

/-- FinalizeAndSend: finalize the buffer, compute the batch size and the
time waited since the last flush (saturating time.Time.Sub), and compare
both against the primary destination thresholds. On trigger: observe the
wait time unless the last-flush time is the zero time, flush, reset the
last-flush timestamp to a fresh time.Now reading, and derive the status
from the pre-flush batch size. Otherwise return the OK status with no
I/O and no state change. -/
def FinalizeAndSend (w : RealWorker) (K : Nat) (now nowAfter : Nat)
    (o : Nat → DestOracle) (order : List Nat) (fuel : Nat) : SendResult :=
  let w0 : RealWorker := { w with bf := w.bf.Finalize }
  let batchSize := w0.bf.FlowCount
  let waitTime := goSub now w0.last
  if batchSize ≥ w0.primary.MaximumBatchSize ∨ waitTime ≥ w0.primary.MaximumWaitTime then
    let waitObserved := w0.last != 0
    let fr := Flush w0 K o order fuel
    let w2 : RealWorker := { fr.worker with last := nowAfter }
    if batchSize ≥ w0.primary.MaximumBatchSize then
      { worker := w2, status := WorkerStatus.WorkerStatusOverloaded, flushed := true
        waitTimeObserved := waitObserved, overloadedInc := true, underloadedInc := false
        runs := fr.runs, trace := fr.trace }
    else if batchSize ≤ w0.primary.MaximumBatchSize / K then
      { worker := w2, status := WorkerStatus.WorkerStatusUnderloaded, flushed := true
        waitTimeObserved := waitObserved, overloadedInc := false, underloadedInc := true
        runs := fr.runs, trace := fr.trace }
    else
      { worker := w2, status := WorkerStatus.WorkerStatusOK, flushed := true
        waitTimeObserved := waitObserved, overloadedInc := false, underloadedInc := false
        runs := fr.runs, trace := fr.trace }
  else
    { worker := w0, status := WorkerStatus.WorkerStatusOK, flushed := false
      waitTimeObserved := false, overloadedInc := false, underloadedInc := false
      runs := [], trace := [] }

/-- The error connectDestination records for a failing candidate server:
a probe failure when the dial succeeded, otherwise a dial failure. -/
def serverFailure (dialOK : Nat → Bool) (i : Nat) : ConnectError :=
  if dialOK i then ConnectError.probeErr i else ConnectError.dialErr i

/-! ## Concrete fixtures (used to instantiate the general theorems) -/

/-- A sample primary-like destination writer with a large batch threshold
and unbounded retries. -/
def sampleMainDW : DestinationWriter where
  name := "main"
  conn := some 0
  servers := ["a"]
  asyncSettings := mkAsyncSettings ⟨100, 50⟩
  config := ⟨100, 50⟩
  maxRetries := 0

/-- A sample secondary destination writer with a small batch threshold and
a bounded retry budget. -/
def sampleAzureDW : DestinationWriter where
  name := "azure"
  conn := some 0
  servers := ["b"]
  asyncSettings := mkAsyncSettings ⟨4, 50⟩
  config := ⟨4, 50⟩
  maxRetries := 3

/-- A sample writer with a retry ceiling of one attempt. -/
def sampleRetryOneDW : DestinationWriter where
  name := "flaky"
  conn := some 0
  servers := ["c"]
  asyncSettings := mkAsyncSettings ⟨10, 50⟩
  config := ⟨10, 50⟩
  maxRetries := 1

/-- A sample two-destination worker holding two records. -/
def sampleWorker2 : RealWorker where
  bf := ⟨[5, 6]⟩
  last := 0
  primary := ⟨10, 50⟩
  destWriters := [sampleMainDW, sampleAzureDW]

/-- A sample worker pairing a cooperating destination with one that gives
up after one attempt. -/
def sampleWorkerMixed : RealWorker where
  bf := ⟨[5, 6]⟩
  last := 0
  primary := ⟨10, 50⟩
  destWriters := [sampleRetryOneDW, sampleMainDW]

/-- An oracle whose network always cooperates. -/
def sampleOKOracle : DestOracle where
  livePing := fun _ _ => true
  dialOK := fun _ _ => true
  probeOK := fun _ _ => true
  perm := fun _ => [0]
  sendOK := fun _ => true
  cancelledAfter := fun _ => false

/-- An oracle whose sends always fail while connections keep succeeding
and the execution scope is never cancelled. -/
def sampleSendFailOracle : DestOracle where
  livePing := fun _ _ => true
  dialOK := fun _ _ => true
  probeOK := fun _ _ => true
  perm := fun _ => [0]
  sendOK := fun _ => false
  cancelledAfter := fun _ => false

/-- An oracle whose sends fail and whose execution scope is observed
cancelled as soon as backoff checks it. -/
def sampleCancelOracle : DestOracle where
  livePing := fun _ _ => true
  dialOK := fun _ _ => true
  probeOK := fun _ _ => true
  perm := fun _ => [0]
  sendOK := fun _ => false
  cancelledAfter := fun _ => true

/-- An oracle for a destination with no candidate servers: rand.Perm of
an empty server list is always the empty permutation. -/
def sampleEmptyOracle : DestOracle where
  livePing := fun _ _ => true
  dialOK := fun _ _ => true
  probeOK := fun _ _ => true
  perm := fun _ => []
  sendOK := fun _ => true
  cancelledAfter := fun _ => false

/-- Oracle family for the independent-failure scenario: destination 0
always fails to send, every other destination cooperates. -/
def sampleScenarioOracles : Nat → DestOracle := fun j =>
  if j = 0 then sampleSendFailOracle else sampleOKOracle

/-! ## Theorems -/

/-- C1: a call to FinalizeAndSend flushes if and only if the finalized
batch size reaches the primary MaximumBatchSize or the time since the
last flush reaches the primary MaximumWaitTime; when neither threshold is
crossed, no I/O happens (no runs, no trace), the worker state — in
particular the last-flush timestamp — is unchanged, and the status
WorkerStatusOK is returned. -/
theorem finalizeAndSend_threshold_iff (w : RealWorker) (K now nowAfter : Nat)
    (o : Nat → DestOracle) (order : List Nat) (fuel : Nat) :
    ((FinalizeAndSend w K now nowAfter o order fuel).flushed = true ↔
      (w.bf.FlowCount ≥ w.primary.MaximumBatchSize ∨
        goSub now w.last ≥ w.primary.MaximumWaitTime)) ∧
    (¬ (w.bf.FlowCount ≥ w.primary.MaximumBatchSize ∨
        goSub now w.last ≥ w.primary.MaximumWaitTime) →
      FinalizeAndSend w K now nowAfter o order fuel =
        { worker := w, status := WorkerStatus.WorkerStatusOK, flushed := false,
          waitTimeObserved := false, overloadedInc := false, underloadedInc := false,
          runs := [], trace := [] }) := by
  unfold FinalizeAndSend
  simp only [FlowMessage.Finalize]
  split_ifs with h h1 h2 <;> simp_all

/-- Witness for C1 at a concrete worker below both thresholds: no flush,
no I/O, worker unchanged, status OK. -/
theorem finalizeAndSend_threshold_iff_witness :
    FinalizeAndSend
      { bf := ⟨[7]⟩, last := 100, primary := ⟨10, 50⟩, destWriters := [] }
      4 120 130 (fun _ => sampleOKOracle) [] 3 =
      { worker := { bf := ⟨[7]⟩, last := 100, primary := ⟨10, 50⟩, destWriters := [] },
        status := WorkerStatus.WorkerStatusOK, flushed := false,
        waitTimeObserved := false, overloadedInc := false, underloadedInc := false,
        runs := [], trace := [] } :=
  (finalizeAndSend_threshold_iff
    { bf := ⟨[7]⟩, last := 100, primary := ⟨10, 50⟩, destWriters := [] }
    4 120 130 (fun _ => sampleOKOracle) [] 3).2 (by decide)

/-- C2: immediately after a triggered flush, the returned status is
Overloaded iff the pre-flush batch size s reaches the primary
MaximumBatchSize, Underloaded iff s is below it and at most
MaximumBatchSize / K, and OK iff s is strictly between the two
thresholds; the three conditions are mutually exclusive and exhaustive
by this characterization. -/
theorem finalizeAndSend_load_signal (w : RealWorker) (K now nowAfter : Nat)
    (o : Nat → DestOracle) (order : List Nat) (fuel : Nat)
    (h : w.bf.FlowCount ≥ w.primary.MaximumBatchSize ∨
      goSub now w.last ≥ w.primary.MaximumWaitTime) :
    ((FinalizeAndSend w K now nowAfter o order fuel).status =
        WorkerStatus.WorkerStatusOverloaded ↔
      w.bf.FlowCount ≥ w.primary.MaximumBatchSize) ∧
    ((FinalizeAndSend w K now nowAfter o order fuel).status =
        WorkerStatus.WorkerStatusUnderloaded ↔
      (w.bf.FlowCount < w.primary.MaximumBatchSize ∧
        w.bf.FlowCount ≤ w.primary.MaximumBatchSize / K)) ∧
    ((FinalizeAndSend w K now nowAfter o order fuel).status =
        WorkerStatus.WorkerStatusOK ↔
      (w.bf.FlowCount < w.primary.MaximumBatchSize ∧
        w.primary.MaximumBatchSize / K < w.bf.FlowCount)) := by
  unfold FinalizeAndSend
  simp only [FlowMessage.Finalize]
  split_ifs with h0 h1 _h2 <;> refine ⟨?_, ?_, ?_⟩ <;> simp <;> omega

/-- Witness for C2 at a concrete triggered flush in the OK band. -/
theorem finalizeAndSend_load_signal_witness :
    ((FinalizeAndSend
        { bf := ⟨[1, 2, 3]⟩, last := 0, primary := ⟨10, 50⟩, destWriters := [] }
        4 120 130 (fun _ => sampleOKOracle) [] 3).status =
        WorkerStatus.WorkerStatusOverloaded ↔
      (FlowMessage.FlowCount ⟨[1, 2, 3]⟩ ≥ 10)) ∧
    ((FinalizeAndSend
        { bf := ⟨[1, 2, 3]⟩, last := 0, primary := ⟨10, 50⟩, destWriters := [] }
        4 120 130 (fun _ => sampleOKOracle) [] 3).status =
        WorkerStatus.WorkerStatusUnderloaded ↔
      (FlowMessage.FlowCount ⟨[1, 2, 3]⟩ < 10 ∧
        FlowMessage.FlowCount ⟨[1, 2, 3]⟩ ≤ 10 / 4)) ∧
    ((FinalizeAndSend
        { bf := ⟨[1, 2, 3]⟩, last := 0, primary := ⟨10, 50⟩, destWriters := [] }
        4 120 130 (fun _ => sampleOKOracle) [] 3).status =
        WorkerStatus.WorkerStatusOK ↔
      (FlowMessage.FlowCount ⟨[1, 2, 3]⟩ < 10 ∧
        10 / 4 < FlowMessage.FlowCount ⟨[1, 2, 3]⟩)) :=
  finalizeAndSend_load_signal
    { bf := ⟨[1, 2, 3]⟩, last := 0, primary := ⟨10, 50⟩, destWriters := [] }
    4 120 130 (fun _ => sampleOKOracle) [] 3 (by right; decide)

/-- Every run produced by runAll carries the serialized form of the one
buffer handed to it. -/
theorem runAll_payload_eq (bf : FlowMessage) (K : Nat) (o : Nat → DestOracle)
    (fuel : Nat) :
    ∀ (dws : List DestinationWriter) (i : Nat),
      ∀ r ∈ runAll bf K o fuel i dws, r.payload = bf.ClickHouseProtoInput := by
  intro dws
  induction dws with
  | nil => intro i r hr; simp [runAll] at hr
  | cons dw rest ih =>
    intro i r hr
    rw [runAll] at hr
    rcases List.mem_cons.mp hr with h | h
    · subst h; rfl
    · exact ih (i + 1) r h

/-- C3: after any flush the buffer record count is zero, whatever the
destination outcomes; the clear event comes strictly after the
settlement of every destination task, regardless of completion order;
and no destination error reaches the caller: the status FinalizeAndSend
returns is the same for every oracle family, i.e. independent of every
connect, send or cancellation outcome. -/
theorem flush_clears_buffer (w : RealWorker) (K now nowAfter : Nat)
    (o o2 : Nat → DestOracle) (order : List Nat) (fuel : Nat) :
    (Flush w K o order fuel).worker.bf.FlowCount = 0 ∧
    (w.bf.FlowCount ≠ 0 →
      (Flush w K o order fuel).trace =
        order.map FlushEvent.destEvent ++ [FlushEvent.clearEvent] ∧
      FlushEvent.clearEvent ∉ order.map FlushEvent.destEvent) ∧
    (FinalizeAndSend w K now nowAfter o order fuel).status =
      (FinalizeAndSend w K now nowAfter o2 order fuel).status := by
  refine ⟨?_, ?_, ?_⟩
  · unfold Flush
    split_ifs with h
    · exact h
    · simp [FlowMessage.Clear, FlowMessage.FlowCount]
  · intro hne
    unfold Flush
    split_ifs with h
    · exact absurd h hne
    · exact ⟨rfl, by simp⟩
  · unfold FinalizeAndSend
    simp only [FlowMessage.Finalize]
    split_ifs <;> rfl

/-- Witness for C3 at a concrete one-destination worker whose only
destination always fails to send. -/
theorem flush_clears_buffer_witness :
    (Flush sampleWorkerMixed 4 (fun _ => sampleSendFailOracle)
        [0, 1] 3).worker.bf.FlowCount = 0 ∧
    ((Flush sampleWorkerMixed 4 (fun _ => sampleSendFailOracle) [0, 1] 3).trace =
        [0, 1].map FlushEvent.destEvent ++ [FlushEvent.clearEvent] ∧
      FlushEvent.clearEvent ∉ [0, 1].map FlushEvent.destEvent) ∧
    (FinalizeAndSend sampleWorkerMixed 4 100 110 (fun _ => sampleSendFailOracle)
        [0, 1] 3).status =
      (FinalizeAndSend sampleWorkerMixed 4 100 110 (fun _ => sampleOKOracle)
        [0, 1] 3).status :=
  ⟨(flush_clears_buffer sampleWorkerMixed 4 100 110
      (fun _ => sampleSendFailOracle) (fun _ => sampleOKOracle) [0, 1] 3).1,
    (flush_clears_buffer sampleWorkerMixed 4 100 110
      (fun _ => sampleSendFailOracle) (fun _ => sampleOKOracle) [0, 1] 3).2.1
      (by decide),
    (flush_clears_buffer sampleWorkerMixed 4 100 110
      (fun _ => sampleSendFailOracle) (fun _ => sampleOKOracle) [0, 1] 3).2.2⟩

/-- C4: within one flush, every destination receives the serialized form
of the one shared buffer — same byte content, whose length is the record
count — so any two destinations receive identical payloads, whatever
their insert-mode selection. -/
theorem flush_payload_identical (w : RealWorker) (K : Nat)
    (o : Nat → DestOracle) (order : List Nat) (fuel : Nat) :
    (∀ r ∈ (Flush w K o order fuel).runs,
      r.payload = w.bf.ClickHouseProtoInput ∧
      r.payload.length = w.bf.FlowCount) ∧
    (∀ r1 ∈ (Flush w K o order fuel).runs, ∀ r2 ∈ (Flush w K o order fuel).runs,
      r1.payload = r2.payload) := by
  have key : ∀ r ∈ (Flush w K o order fuel).runs,
      r.payload = w.bf.ClickHouseProtoInput := by
    intro r hr
    unfold Flush at hr
    split_ifs at hr with h
    · simp at hr
    · exact runAll_payload_eq w.bf K o fuel w.destWriters 0 r hr
  refine ⟨fun r hr => ⟨key r hr, ?_⟩, fun r1 h1 r2 h2 => (key r1 h1).trans (key r2 h2).symm⟩
  rw [key r hr]
  rfl

/-- Witness for C4 at a concrete two-destination flush with distinct
insert modes (the first run of the flush carries the shared payload). -/
theorem flush_payload_identical_witness :
    (Flush sampleWorker2 4 (fun _ => sampleOKOracle) [0, 1] 3).runs.headI.payload =
      sampleWorker2.bf.ClickHouseProtoInput ∧
    (Flush sampleWorker2 4
      (fun _ => sampleOKOracle) [0, 1] 3).runs.headI.payload.length =
      sampleWorker2.bf.FlowCount :=
  (flush_payload_identical sampleWorker2 4 (fun _ => sampleOKOracle) [0, 1] 3).1
    (Flush sampleWorker2 4 (fun _ => sampleOKOracle) [0, 1] 3).runs.headI
    (by decide)

/-- With a non-zero retry ceiling m, the retry loop performs at most
m - attempts-so-far further sends, whatever the network does. -/
theorem retryLoop_writeAttempts_le (m : Nat) (o : DestOracle) (hm : 0 < m) :
    ∀ (fuel : Nat) (st : RetryAcc),
      (retryLoop m o fuel st).1.writeAttempts ≤
        st.writeAttempts + (m - st.attempts) := by
  intro fuel
  induction fuel with
  | zero => intro st; simp [retryLoop]
  | succ f ih =>
    intro st
    rw [retryLoop]
    by_cases hcap : 0 < m ∧ m < st.attempts + 1
    · simp [hcap]
    · have ha : st.attempts + 1 ≤ m := by omega
      simp only [if_neg hcap]
      rcases hE : (connectDestination st.conn (o.livePing (st.attempts + 1))
          (o.dialOK (st.attempts + 1)) (o.probeOK (st.attempts + 1))
          (o.perm (st.attempts + 1))).err with _ | e
      · rcases hC : (connectDestination st.conn (o.livePing (st.attempts + 1))
            (o.dialOK (st.attempts + 1)) (o.probeOK (st.attempts + 1))
            (o.perm (st.attempts + 1))).conn with _ | c
        · simp
        · by_cases hS : o.sendOK (st.attempts + 1) = true
          · simp [hS]
            omega
          · simp only [Bool.not_eq_true] at hS
            by_cases hX : o.cancelledAfter (st.attempts + 1) = true
            · simp [hS, hX]
              omega
            · simp only [Bool.not_eq_true] at hX
              simp only [hS, hX, Bool.false_eq_true, if_false]
              refine (ih _).trans ?_
              simp
              omega
      · by_cases hX : o.cancelledAfter (st.attempts + 1) = true
        · simp [hX]
        · simp only [Bool.not_eq_true] at hX
          simp only [hX, Bool.false_eq_true, if_false]
          refine (ih _).trans ?_
          simp
          omega

/-- With a non-zero retry ceiling m and at most m attempts so far, the
retry loop never runs the operation more than m + 1 times: the extra
invocation is the one that observes the exceeded ceiling and gives up
permanently. -/
theorem retryLoop_attempts_le (m : Nat) (o : DestOracle) (hm : 0 < m) :
    ∀ (fuel : Nat) (st : RetryAcc), st.attempts ≤ m →
      (retryLoop m o fuel st).1.attempts ≤ m + 1 := by
  intro fuel
  induction fuel with
  | zero => intro st h; simp [retryLoop]; omega
  | succ f ih =>
    intro st h
    rw [retryLoop]
    by_cases hcap : 0 < m ∧ m < st.attempts + 1
    · simp [hcap]
      omega
    · simp only [if_neg hcap]
      rcases hE : (connectDestination st.conn (o.livePing (st.attempts + 1))
          (o.dialOK (st.attempts + 1)) (o.probeOK (st.attempts + 1))
          (o.perm (st.attempts + 1))).err with _ | e
      · rcases hC : (connectDestination st.conn (o.livePing (st.attempts + 1))
            (o.dialOK (st.attempts + 1)) (o.probeOK (st.attempts + 1))
            (o.perm (st.attempts + 1))).conn with _ | c
        · simp
          omega
        · by_cases hS : o.sendOK (st.attempts + 1) = true
          · simp [hS]
            omega
          · simp only [Bool.not_eq_true] at hS
            by_cases hX : o.cancelledAfter (st.attempts + 1) = true
            · simp [hS, hX]
              omega
            · simp only [Bool.not_eq_true] at hX
              simp only [hS, hX, Bool.false_eq_true, if_false]
              exact ih _ (by simp; omega)
      · by_cases hX : o.cancelledAfter (st.attempts + 1) = true
        · simp [hX]
          omega
        · simp only [Bool.not_eq_true] at hX
          simp only [hX, Bool.false_eq_true, if_false]
          exact ih _ (by simp; omega)

/-- With an unbounded retry budget (maxRetries = 0, mapped to infinite
retries) the loop can never report retry exhaustion. -/
theorem retryLoop_unbounded_no_exhaust (o : DestOracle) :
    ∀ (fuel : Nat) (st : RetryAcc),
      (retryLoop 0 o fuel st).2 ≠ RunOutcome.retryExhausted := by
  intro fuel
  induction fuel with
  | zero => intro st; simp [retryLoop]
  | succ f ih =>
    intro st
    rw [retryLoop]
    simp only [lt_irrefl, false_and, if_false]
    rcases hE : (connectDestination st.conn (o.livePing (st.attempts + 1))
        (o.dialOK (st.attempts + 1)) (o.probeOK (st.attempts + 1))
        (o.perm (st.attempts + 1))).err with _ | e
    · rcases hC : (connectDestination st.conn (o.livePing (st.attempts + 1))
          (o.dialOK (st.attempts + 1)) (o.probeOK (st.attempts + 1))
          (o.perm (st.attempts + 1))).conn with _ | c
      · simp
      · by_cases hS : o.sendOK (st.attempts + 1) = true
        · simp [hS]
        · simp only [Bool.not_eq_true] at hS
          by_cases hX : o.cancelledAfter (st.attempts + 1) = true
          · simp [hS, hX]
          · simp only [Bool.not_eq_true] at hX
            simp only [hS, hX, Bool.false_eq_true, if_false]
            exact ih _
    · by_cases hX : o.cancelledAfter (st.attempts + 1) = true
      · simp [hX]
      · simp only [Bool.not_eq_true] at hX
        simp only [hX, Bool.false_eq_true, if_false]
        exact ih _

/-- Under perpetual send failure with working connections, no
cancellation, and an unbounded budget, the loop just keeps going: it
consumes all its fuel, one attempt per unit. -/
theorem retryLoop_perpetual_failure (o : DestOracle)
    (hconn : ∀ (a : Nat) (conn : Option Nat),
      (connectDestination conn (o.livePing a) (o.dialOK a) (o.probeOK a)
        (o.perm a)).err = none ∧
      ∃ c, (connectDestination conn (o.livePing a) (o.dialOK a) (o.probeOK a)
        (o.perm a)).conn = some c)
    (hsend : ∀ a, o.sendOK a = false)
    (hcanc : ∀ a, o.cancelledAfter a = false) :
    ∀ (fuel : Nat) (st : RetryAcc),
      (retryLoop 0 o fuel st).1.attempts = st.attempts + fuel ∧
      (retryLoop 0 o fuel st).2 = RunOutcome.stillRetrying := by
  intro fuel
  induction fuel with
  | zero => intro st; simp [retryLoop]
  | succ f ih =>
    intro st
    rw [retryLoop]
    simp only [lt_irrefl, false_and, if_false]
    obtain ⟨hE, c, hC⟩ := hconn (st.attempts + 1) st.conn
    simp only [hE, hC, hsend, hcanc, Bool.false_eq_true, if_false]
    have := ih
      { st with
          attempts := st.attempts + 1, conn := none,
          writeAttempts := st.writeAttempts + 1, sendErrors := st.sendErrors + 1 }
    refine ⟨?_, this.2⟩
    rw [this.1]
    simp
    omega

/-- Under perpetual send failure with working connections and an
unbounded budget, the only ways the loop can stop are cancellation or
running out of fuel while still retrying. -/
theorem retryLoop_perpetual_failure_exit (o : DestOracle)
    (hconn : ∀ (a : Nat) (conn : Option Nat),
      (connectDestination conn (o.livePing a) (o.dialOK a) (o.probeOK a)
        (o.perm a)).err = none ∧
      ∃ c, (connectDestination conn (o.livePing a) (o.dialOK a) (o.probeOK a)
        (o.perm a)).conn = some c)
    (hsend : ∀ a, o.sendOK a = false) :
    ∀ (fuel : Nat) (st : RetryAcc),
      (retryLoop 0 o fuel st).2 = RunOutcome.cancelled ∨
      (retryLoop 0 o fuel st).2 = RunOutcome.stillRetrying := by
  intro fuel
  induction fuel with
  | zero => intro st; simp [retryLoop]
  | succ f ih =>
    intro st
    rw [retryLoop]
    simp only [lt_irrefl, false_and, if_false]
    obtain ⟨hE, c, hC⟩ := hconn (st.attempts + 1) st.conn
    simp only [hE, hC, hsend, Bool.false_eq_true, if_false]
    by_cases hX : o.cancelledAfter (st.attempts + 1) = true
    · simp [hX]
    · simp only [Bool.not_eq_true] at hX
      simp only [hX, Bool.false_eq_true, if_false]
      exact ih _

/-- When the first attempt connects and the send succeeds, the
write-with-retry call ends immediately with one successful write. -/
theorem flushSingle_success_first (bf : FlowMessage) (K : Nat)
    (dw : DestinationWriter) (o : DestOracle) (fuel : Nat) (c : Nat)
    (hE : (connectDestination dw.conn (o.livePing 1) (o.dialOK 1) (o.probeOK 1)
      (o.perm 1)).err = none)
    (hC : (connectDestination dw.conn (o.livePing 1) (o.dialOK 1) (o.probeOK 1)
      (o.perm 1)).conn = some c)
    (hS : o.sendOK 1 = true) :
    flushSingleDestination bf K dw o (fuel + 1) =
      { outcome := RunOutcome.success, attempts := 1, writeAttempts := 1,
        successfulWrites := 1, connectErrors := 0, sendErrors := 0,
        retriesExceededInc := 0, conn := some c,
        settings :=
          if bf.FlowCount ≤ dw.config.MaximumBatchSize / K
            then dw.asyncSettings else [],
        payload := bf.ClickHouseProtoInput } := by
  have hcap : ¬ (0 < dw.maxRetries ∧ dw.maxRetries = 0) := by omega
  unfold flushSingleDestination
  rw [retryLoop]
  simp [hcap, hE, hC, hS]

/-- With a retry ceiling of one, a first attempt whose send fails (no
cancellation) is followed by a second operation invocation that observes
the exceeded ceiling and gives up permanently: exactly one write was
performed and the retries-exceeded metric is bumped once. -/
theorem flushSingle_exhaust_after_one (bf : FlowMessage) (K : Nat)
    (dw : DestinationWriter) (o : DestOracle) (fuel : Nat) (c : Nat)
    (hm : dw.maxRetries = 1)
    (hE : (connectDestination dw.conn (o.livePing 1) (o.dialOK 1) (o.probeOK 1)
      (o.perm 1)).err = none)
    (hC : (connectDestination dw.conn (o.livePing 1) (o.dialOK 1) (o.probeOK 1)
      (o.perm 1)).conn = some c)
    (hS : o.sendOK 1 = false)
    (hX : o.cancelledAfter 1 = false) :
    flushSingleDestination bf K dw o (fuel + 1 + 1) =
      { outcome := RunOutcome.retryExhausted, attempts := 2, writeAttempts := 1,
        successfulWrites := 0, connectErrors := 0, sendErrors := 1,
        retriesExceededInc := 1, conn := none,
        settings :=
          if bf.FlowCount ≤ dw.config.MaximumBatchSize / K
            then dw.asyncSettings else [],
        payload := bf.ClickHouseProtoInput } := by
  unfold flushSingleDestination
  rw [retryLoop]
  simp [hm, hE, hC, hS, hX]
  rw [retryLoop]
  simp

/-- When the first attempt connects but the send fails and the execution
scope is then observed cancelled, the call ends with the cancellation
outcome after a single attempt. -/
theorem flushSingle_cancel_first (bf : FlowMessage) (K : Nat)
    (dw : DestinationWriter) (o : DestOracle) (fuel : Nat) (c : Nat)
    (hE : (connectDestination dw.conn (o.livePing 1) (o.dialOK 1) (o.probeOK 1)
      (o.perm 1)).err = none)
    (hC : (connectDestination dw.conn (o.livePing 1) (o.dialOK 1) (o.probeOK 1)
      (o.perm 1)).conn = some c)
    (hS : o.sendOK 1 = false)
    (hX : o.cancelledAfter 1 = true) :
    (flushSingleDestination bf K dw o (fuel + 1)).outcome = RunOutcome.cancelled ∧
    (flushSingleDestination bf K dw o (fuel + 1)).attempts = 1 ∧
    (flushSingleDestination bf K dw o (fuel + 1)).retriesExceededInc = 0 := by
  have hcap : ¬ (0 < dw.maxRetries ∧ dw.maxRetries = 0) := by omega
  unfold flushSingleDestination
  rw [retryLoop]
  simp [hcap, hE, hC, hS, hX]

/-- runAll produces one run per destination writer. -/
theorem runAll_length (bf : FlowMessage) (K : Nat) (o : Nat → DestOracle)
    (fuel : Nat) :
    ∀ (dws : List DestinationWriter) (i : Nat),
      (runAll bf K o fuel i dws).length = dws.length := by
  intro dws
  induction dws with
  | nil => intro i; simp [runAll]
  | cons dw rest ih => intro i; simp [runAll, ih]

/-- The j-th run of runAll is the retry call for the j-th writer driven
by the j-th oracle. -/
theorem runAll_getElem (bf : FlowMessage) (K : Nat) (o : Nat → DestOracle)
    (fuel : Nat) :
    ∀ (dws : List DestinationWriter) (i j : Nat),
      (runAll bf K o fuel i dws)[j]? =
        (dws[j]?).map fun dw => flushSingleDestination bf K dw (o (i + j)) fuel := by
  intro dws
  induction dws with
  | nil => intro i j; simp [runAll]
  | cons dw rest ih =>
    intro i j
    cases j with
    | zero => simp [runAll]
    | succ j =>
      rw [runAll]
      have hidx : i + 1 + j = i + (j + 1) := by omega
      simp only [List.getElem?_cons_succ, ih (i + 1) j, hidx]

/-- C5: (cap) for every destination with a non-zero MaxRetries, the
number of performed writes is capped at MaxRetries, the operation runs at
most MaxRetries + 1 times (the extra run only observes the exceeded
ceiling), and a retry-exhausted outcome bumps the retries-exceeded metric
exactly once; (scenario) in a flush where every destination connects on
its first attempt, exactly one destination jf has MaxRetries = 1 and
always fails to send while every other destination sends successfully,
the flush settles every destination: each other destination performs
exactly one successful write, and destination jf performs exactly one
write attempt, ends retry-exhausted after its second operation run, and
bumps the retries-exceeded metric exactly once. -/
theorem flush_retry_cap_and_independent_failure :
    (∀ (bf : FlowMessage) (K : Nat) (dw : DestinationWriter) (o : DestOracle)
        (fuel : Nat), 0 < dw.maxRetries →
      (flushSingleDestination bf K dw o fuel).writeAttempts ≤ dw.maxRetries ∧
      (flushSingleDestination bf K dw o fuel).attempts ≤ dw.maxRetries + 1 ∧
      ((flushSingleDestination bf K dw o fuel).outcome = RunOutcome.retryExhausted →
        (flushSingleDestination bf K dw o fuel).retriesExceededInc = 1)) ∧
    (∀ (w : RealWorker) (K fuel : Nat) (o : Nat → DestOracle) (order : List Nat)
        (jf : Nat) (c : Nat → Nat),
      w.bf.FlowCount ≠ 0 →
      (∀ j dw, w.destWriters[j]? = some dw →
        (connectDestination dw.conn ((o j).livePing 1) ((o j).dialOK 1)
          ((o j).probeOK 1) ((o j).perm 1)).err = none ∧
        (connectDestination dw.conn ((o j).livePing 1) ((o j).dialOK 1)
          ((o j).probeOK 1) ((o j).perm 1)).conn = some (c j)) →
      (∀ j, j ≠ jf → (o j).sendOK 1 = true) →
      (o jf).sendOK 1 = false →
      (o jf).cancelledAfter 1 = false →
      (∀ dw, w.destWriters[jf]? = some dw → dw.maxRetries = 1) →
      (Flush w K o order (fuel + 1 + 1)).runs.length = w.destWriters.length ∧
      (∀ j dw, j ≠ jf → w.destWriters[j]? = some dw →
        (Flush w K o order (fuel + 1 + 1)).runs[j]? =
          some (flushSingleDestination w.bf K dw (o j) (fuel + 1 + 1)) ∧
        (flushSingleDestination w.bf K dw (o j) (fuel + 1 + 1)).outcome =
          RunOutcome.success ∧
        (flushSingleDestination w.bf K dw (o j) (fuel + 1 + 1)).successfulWrites = 1 ∧
        (flushSingleDestination w.bf K dw (o j) (fuel + 1 + 1)).writeAttempts = 1 ∧
        (flushSingleDestination w.bf K dw (o j) (fuel + 1 + 1)).retriesExceededInc = 0) ∧
      (∀ dw, w.destWriters[jf]? = some dw →
        (Flush w K o order (fuel + 1 + 1)).runs[jf]? =
          some (flushSingleDestination w.bf K dw (o jf) (fuel + 1 + 1)) ∧
        (flushSingleDestination w.bf K dw (o jf) (fuel + 1 + 1)).outcome =
          RunOutcome.retryExhausted ∧
        (flushSingleDestination w.bf K dw (o jf) (fuel + 1 + 1)).writeAttempts = 1 ∧
        (flushSingleDestination w.bf K dw (o jf) (fuel + 1 + 1)).attempts = 2 ∧
        (flushSingleDestination w.bf K dw (o jf) (fuel + 1 + 1)).retriesExceededInc = 1)) := by
  constructor
  · intro bf K dw o fuel hm
    refine ⟨?_, ?_, ?_⟩
    · have h := retryLoop_writeAttempts_le dw.maxRetries o hm fuel
        { attempts := 0, writeAttempts := 0, successfulWrites := 0,
          connectErrors := 0, sendErrors := 0, conn := dw.conn }
      simp only [flushSingleDestination]
      simp only at h
      omega
    · have h := retryLoop_attempts_le dw.maxRetries o hm fuel
        { attempts := 0, writeAttempts := 0, successfulWrites := 0,
          connectErrors := 0, sendErrors := 0, conn := dw.conn }
        (by simp)
      simp only [flushSingleDestination]
      simp only at h
      omega
    · intro h
      simp only [flushSingleDestination] at h ⊢
      simp [h]
  · intro w K fuel o order jf c hne hconn hsendok hsfail hxfail hmr
    have hFr : (Flush w K o order (fuel + 1 + 1)).runs =
        runAll w.bf K o (fuel + 1 + 1) 0 w.destWriters := by
      unfold Flush
      simp [hne]
    refine ⟨?_, ?_, ?_⟩
    · rw [hFr, runAll_length]
    · intro j dw hj hdw
      have hget := runAll_getElem w.bf K o (fuel + 1 + 1) w.destWriters 0 j
      rw [hdw] at hget
      simp only [Nat.zero_add] at hget
      have hrun := flushSingle_success_first w.bf K dw (o j) (fuel + 1) (c j)
        (hconn j dw hdw).1 (hconn j dw hdw).2 (hsendok j hj)
      exact ⟨by rw [hFr, hget]; rfl, by rw [hrun], by rw [hrun], by rw [hrun],
        by rw [hrun]⟩
    · intro dw hdw
      have hget := runAll_getElem w.bf K o (fuel + 1 + 1) w.destWriters 0 jf
      rw [hdw] at hget
      simp only [Nat.zero_add] at hget
      have hrun := flushSingle_exhaust_after_one w.bf K dw (o jf) fuel (c jf)
        (hmr dw hdw) (hconn jf dw hdw).1 (hconn jf dw hdw).2 hsfail hxfail
      exact ⟨by rw [hFr, hget]; rfl, by rw [hrun], by rw [hrun], by rw [hrun],
        by rw [hrun]⟩

/-- Witness for C5: a two-destination flush where destination 0 has
MaxRetries = 1 and always fails while destination 1 always succeeds. -/
theorem flush_retry_cap_and_independent_failure_witness :
    (Flush sampleWorkerMixed 4 sampleScenarioOracles [0, 1] 3).runs.length = 2 ∧
    (Flush sampleWorkerMixed 4 sampleScenarioOracles [0, 1] 3).runs[1]? =
      some (flushSingleDestination sampleWorkerMixed.bf 4 sampleMainDW
        (sampleScenarioOracles 1) 3) ∧
    (flushSingleDestination sampleWorkerMixed.bf 4 sampleMainDW
      (sampleScenarioOracles 1) 3).outcome = RunOutcome.success ∧
    (flushSingleDestination sampleWorkerMixed.bf 4 sampleMainDW
      (sampleScenarioOracles 1) 3).successfulWrites = 1 ∧
    (Flush sampleWorkerMixed 4 sampleScenarioOracles [0, 1] 3).runs[0]? =
      some (flushSingleDestination sampleWorkerMixed.bf 4 sampleRetryOneDW
        (sampleScenarioOracles 0) 3) ∧
    (flushSingleDestination sampleWorkerMixed.bf 4 sampleRetryOneDW
      (sampleScenarioOracles 0) 3).outcome = RunOutcome.retryExhausted ∧
    (flushSingleDestination sampleWorkerMixed.bf 4 sampleRetryOneDW
      (sampleScenarioOracles 0) 3).writeAttempts = 1 ∧
    (flushSingleDestination sampleWorkerMixed.bf 4 sampleRetryOneDW
      (sampleScenarioOracles 0) 3).retriesExceededInc = 1 := by
  have T := (flush_retry_cap_and_independent_failure).2 sampleWorkerMixed 4 1
    sampleScenarioOracles [0, 1] 0 (fun _ => 0) (by decide)
    (by
      intro j dw h
      rcases j with _ | j
      · simp [sampleWorkerMixed] at h
        subst h
        exact ⟨by decide, by decide⟩
      · rcases j with _ | j
        · simp [sampleWorkerMixed] at h
          subst h
          exact ⟨by decide, by decide⟩
        · simp [sampleWorkerMixed] at h)
    (by
      intro j hj
      rcases j with _ | j
      · exact absurd rfl hj
      · rfl)
    (by decide) (by decide)
    (by
      intro dw h
      simp [sampleWorkerMixed] at h
      subst h
      decide)
  have h1 := T.2.1 1 sampleMainDW (by decide) (by rfl)
  have h0 := T.2.2 sampleRetryOneDW (by rfl)
  exact ⟨T.1, h1.1, h1.2.1, h1.2.2.1, h0.1, h0.2.1, h0.2.2.1, h0.2.2.2.2⟩

/-- C6: a destination with MaxRetries = 0 has no retry-exhaustion
outcome, so the retries-exceeded metric is never bumped; under perpetual
send failures with working connections it keeps retrying without any
finite attempt bound (with fuel N it performs exactly N attempts and is
still retrying), its only exits being cancellation or the end of the
observation window; and when the execution scope is cancelled after a
failed attempt the call returns the Cancelled outcome, which is distinct
from RetryExhausted. -/
theorem flushSingle_unbounded_retry :
    (∀ (bf : FlowMessage) (K : Nat) (dw : DestinationWriter) (o : DestOracle)
        (fuel : Nat), dw.maxRetries = 0 →
      (flushSingleDestination bf K dw o fuel).outcome ≠ RunOutcome.retryExhausted ∧
      (flushSingleDestination bf K dw o fuel).retriesExceededInc = 0) ∧
    (∀ (bf : FlowMessage) (K : Nat) (dw : DestinationWriter) (o : DestOracle),
      dw.maxRetries = 0 →
      (∀ (a : Nat) (conn : Option Nat),
        (connectDestination conn (o.livePing a) (o.dialOK a) (o.probeOK a)
          (o.perm a)).err = none ∧
        ∃ c, (connectDestination conn (o.livePing a) (o.dialOK a) (o.probeOK a)
          (o.perm a)).conn = some c) →
      (∀ a, o.sendOK a = false) →
      ((∀ a, o.cancelledAfter a = false) →
        ∀ N, (flushSingleDestination bf K dw o N).attempts = N ∧
          (flushSingleDestination bf K dw o N).outcome = RunOutcome.stillRetrying) ∧
      (∀ fuel, (flushSingleDestination bf K dw o fuel).outcome = RunOutcome.cancelled ∨
        (flushSingleDestination bf K dw o fuel).outcome = RunOutcome.stillRetrying)) ∧
    (∀ (bf : FlowMessage) (K : Nat) (dw : DestinationWriter) (o : DestOracle)
        (fuel c : Nat),
      (connectDestination dw.conn (o.livePing 1) (o.dialOK 1) (o.probeOK 1)
        (o.perm 1)).err = none →
      (connectDestination dw.conn (o.livePing 1) (o.dialOK 1) (o.probeOK 1)
        (o.perm 1)).conn = some c →
      o.sendOK 1 = false → o.cancelledAfter 1 = true →
      (flushSingleDestination bf K dw o (fuel + 1)).outcome = RunOutcome.cancelled ∧
      RunOutcome.cancelled ≠ RunOutcome.retryExhausted) := by
  refine ⟨?_, ?_, ?_⟩
  · intro bf K dw o fuel hm
    constructor
    · simp only [flushSingleDestination, hm]
      exact retryLoop_unbounded_no_exhaust o fuel _
    · simp only [flushSingleDestination, hm]
      rw [if_neg (retryLoop_unbounded_no_exhaust o fuel _)]
  · intro bf K dw o hm hconn hsend
    constructor
    · intro hcanc N
      have h := retryLoop_perpetual_failure o hconn hsend hcanc N
        { attempts := 0, writeAttempts := 0, successfulWrites := 0,
          connectErrors := 0, sendErrors := 0, conn := dw.conn }
      constructor
      · simp only [flushSingleDestination, hm]
        rw [h.1]
        simp
      · simp only [flushSingleDestination, hm]
        rw [h.2]
    · intro fuel
      have h := retryLoop_perpetual_failure_exit o hconn hsend fuel
        { attempts := 0, writeAttempts := 0, successfulWrites := 0,
          connectErrors := 0, sendErrors := 0, conn := dw.conn }
      simp only [flushSingleDestination, hm]
      exact h
  · intro bf K dw o fuel c hE hC hS hX
    exact ⟨(flushSingle_cancel_first bf K dw o fuel c hE hC hS hX).1, by simp⟩

/-- Witness for C6 at a destination with MaxRetries = 0: a send-failure
oracle without cancellation keeps it retrying for exactly as long as we
watch, and a cancelling oracle ends it with the Cancelled outcome. -/
theorem flushSingle_unbounded_retry_witness :
    ((flushSingleDestination sampleWorkerMixed.bf 4 sampleMainDW
        sampleSendFailOracle 5).outcome ≠ RunOutcome.retryExhausted ∧
      (flushSingleDestination sampleWorkerMixed.bf 4 sampleMainDW
        sampleSendFailOracle 5).retriesExceededInc = 0) ∧
    ((flushSingleDestination sampleWorkerMixed.bf 4 sampleMainDW
        sampleSendFailOracle 5).attempts = 5 ∧
      (flushSingleDestination sampleWorkerMixed.bf 4 sampleMainDW
        sampleSendFailOracle 5).outcome = RunOutcome.stillRetrying) ∧
    ((flushSingleDestination sampleWorkerMixed.bf 4 sampleMainDW
        sampleCancelOracle 1).outcome = RunOutcome.cancelled ∧
      RunOutcome.cancelled ≠ RunOutcome.retryExhausted) := by
  refine ⟨flushSingle_unbounded_retry.1 sampleWorkerMixed.bf 4 sampleMainDW
      sampleSendFailOracle 5 rfl, ?_, ?_⟩
  · refine ((flushSingle_unbounded_retry.2.1 sampleWorkerMixed.bf 4 sampleMainDW
      sampleSendFailOracle rfl ?_ (fun _ => rfl)).1 (fun _ => rfl)) 5
    intro a conn
    cases conn with
    | none => exact ⟨rfl, 0, rfl⟩
    | some x => exact ⟨rfl, x, rfl⟩
  · exact flushSingle_unbounded_retry.2.2 sampleWorkerMixed.bf 4 sampleMainDW
      sampleCancelOracle 0 0 rfl rfl rfl rfl

/-- The connection the server loop establishes is exactly the first
element of the permuted list that passes both the dial and the probe. -/
theorem tryServers_conn (dialOK probeOK : Nat → Bool) :
    ∀ (l : List Nat) (e : Option ConnectError),
      (tryServers dialOK probeOK l e).conn =
        l.find? (fun i => dialOK i && probeOK i) := by
  intro l
  induction l with
  | nil => intro e; simp [tryServers]
  | cons idx rest ih =>
    intro e
    rw [tryServers]
    by_cases hd : dialOK idx = true
    · by_cases hp : probeOK idx = true
      · simp [hd, hp, List.find?]
      · simp only [Bool.not_eq_true] at hp
        simp [hd, hp, List.find?, ih]
    · simp only [Bool.not_eq_true] at hd
      simp [hd, List.find?, ih]

/-- When some server in the list passes both the dial and the probe, the
server loop returns a nil error. -/
theorem tryServers_err_none (dialOK probeOK : Nat → Bool) :
    ∀ (l : List Nat) (e : Option ConnectError),
      (∃ i ∈ l, dialOK i = true ∧ probeOK i = true) →
      (tryServers dialOK probeOK l e).err = none := by
  intro l
  induction l with
  | nil => intro e h; simp at h
  | cons idx rest ih =>
    intro e h
    rw [tryServers]
    by_cases hd : dialOK idx = true
    · by_cases hp : probeOK idx = true
      · simp [hd, hp]
      · simp only [Bool.not_eq_true] at hp
        simp only [hd, hp, Bool.false_eq_true, if_false, if_true]
        refine ih _ ?_
        rcases h with ⟨i, hi, hdi, hpi⟩
        rcases List.mem_cons.mp hi with rfl | hi
        · rw [hpi] at hp; cases hp
        · exact ⟨i, hi, hdi, hpi⟩
    · simp only [Bool.not_eq_true] at hd
      simp only [hd, Bool.false_eq_true, if_false]
      refine ih _ ?_
      rcases h with ⟨i, hi, hdi, hpi⟩
      rcases List.mem_cons.mp hi with rfl | hi
      · rw [hdi] at hd; cases hd
      · exact ⟨i, hi, hdi, hpi⟩

/-- When every server in the list fails the dial-then-probe sequence, the
loop ends with no connection, every server dialed in order, and the
error observed at the last server. -/
theorem tryServers_all_fail (dialOK probeOK : Nat → Bool) :
    ∀ (l : List Nat) (e : Option ConnectError),
      (∀ i ∈ l, ¬(dialOK i = true ∧ probeOK i = true)) →
      (tryServers dialOK probeOK l e).conn = none ∧
      (tryServers dialOK probeOK l e).dialed = l ∧
      ∀ (h : l ≠ []),
        (tryServers dialOK probeOK l e).err =
          some (serverFailure dialOK (l.getLast h)) := by
  intro l
  induction l with
  | nil => intro e _; refine ⟨by simp [tryServers], by simp [tryServers], ?_⟩
           intro h; exact absurd rfl h
  | cons idx rest ih =>
    intro e hfail
    have hidx := hfail idx (List.mem_cons_self idx rest)
    rw [tryServers]
    by_cases hd : dialOK idx = true
    · have hp : probeOK idx = false := by
        rcases Bool.eq_false_or_eq_true (probeOK idx) with h | h
        · exact absurd ⟨hd, h⟩ hidx
        · exact h
      simp only [hd, hp, Bool.false_eq_true, if_false, if_true]
      have hrest := ih (some (ConnectError.probeErr idx))
        (fun i hi => hfail i (List.mem_cons_of_mem idx hi))
      cases rest with
      | nil =>
        refine ⟨by simp [tryServers], by simp [tryServers], ?_⟩
        intro h
        simp [tryServers, serverFailure, hd]
      | cons b t =>
        refine ⟨by simpa using hrest.1, by simpa using hrest.2.1, ?_⟩
        intro h
        have hne : b :: t ≠ [] := List.cons_ne_nil b t
        rw [List.getLast_cons hne]
        simpa using hrest.2.2 hne
    · simp only [Bool.not_eq_true] at hd
      simp only [hd, Bool.false_eq_true, if_false]
      have hrest := ih (some (ConnectError.dialErr idx))
        (fun i hi => hfail i (List.mem_cons_of_mem idx hi))
      cases rest with
      | nil =>
        refine ⟨by simp [tryServers], by simp [tryServers], ?_⟩
        intro h
        simp [tryServers, serverFailure, hd]
      | cons b t =>
        refine ⟨by simpa using hrest.1, by simpa using hrest.2.1, ?_⟩
        intro h
        have hne : b :: t ≠ [] := List.cons_ne_nil b t
        rw [List.getLast_cons hne]
        simpa using hrest.2.2 hne

/-- C7: (reuse) when a live connection exists and its liveness probe
succeeds, connectDestination reuses it with no dial and a nil error;
(search) otherwise — connection absent, or present but failing its probe
— the candidate servers are tried in the permuted order: the connection
becomes the first server of the permutation passing dial and probe, the
error is nil as soon as some server passes both, and if every candidate
fails the returned error is the one observed at the last server of the
permutation; (failover scenario) with three candidate servers of which
the first two always fail to dial and the third dials and probes fine,
connecting without a live connection yields server 2 with a nil error
under every permutation of the three, and a subsequent call with that
live connection and a passing probe reuses it with no dial. -/
theorem connectDestination_algorithm :
    (∀ (c : Nat) (livePing dialOK probeOK : Nat → Bool) (perm : List Nat),
      livePing c = true →
      connectDestination (some c) livePing dialOK probeOK perm =
        { conn := some c, err := none, dialed := [] }) ∧
    (∀ (conn : Option Nat) (livePing dialOK probeOK : Nat → Bool)
        (perm : List Nat),
      (conn = none ∨ ∃ c0, conn = some c0 ∧ livePing c0 = false) →
      (connectDestination conn livePing dialOK probeOK perm).conn =
        perm.find? (fun i => dialOK i && probeOK i) ∧
      ((∃ i ∈ perm, dialOK i = true ∧ probeOK i = true) →
        (connectDestination conn livePing dialOK probeOK perm).err = none) ∧
      ((∀ i ∈ perm, ¬(dialOK i = true ∧ probeOK i = true)) →
        ∀ (h : perm ≠ []),
          (connectDestination conn livePing dialOK probeOK perm).err =
            some (serverFailure dialOK (perm.getLast h)))) ∧
    (∀ (livePing dialOK probeOK : Nat → Bool) (perm : List Nat),
      perm.Perm [0, 1, 2] →
      dialOK 0 = false → dialOK 1 = false → dialOK 2 = true →
      probeOK 2 = true →
      (connectDestination none livePing dialOK probeOK perm).conn = some 2 ∧
      (connectDestination none livePing dialOK probeOK perm).err = none ∧
      (∀ (livePing2 dialOK2 probeOK2 : Nat → Bool) (perm2 : List Nat),
        livePing2 2 = true →
        connectDestination (some 2) livePing2 dialOK2 probeOK2 perm2 =
          { conn := some 2, err := none, dialed := [] })) := by
  have reuse : ∀ (c : Nat) (livePing dialOK probeOK : Nat → Bool)
      (perm : List Nat), livePing c = true →
      connectDestination (some c) livePing dialOK probeOK perm =
        { conn := some c, err := none, dialed := [] } := by
    intro c livePing dialOK probeOK perm h
    simp [connectDestination, h]
  have search : ∀ (conn : Option Nat) (livePing dialOK probeOK : Nat → Bool)
      (perm : List Nat),
      (conn = none ∨ ∃ c0, conn = some c0 ∧ livePing c0 = false) →
      connectDestination conn livePing dialOK probeOK perm =
        tryServers dialOK probeOK perm none := by
    intro conn livePing dialOK probeOK perm hcase
    rcases hcase with rfl | ⟨c0, rfl, hc0⟩
    · rfl
    · simp [connectDestination, hc0]
  refine ⟨reuse, ?_, ?_⟩
  · intro conn livePing dialOK probeOK perm hcase
    rw [search conn livePing dialOK probeOK perm hcase]
    exact ⟨tryServers_conn dialOK probeOK perm none,
      fun h => tryServers_err_none dialOK probeOK perm none h,
      fun hfail h => (tryServers_all_fail dialOK probeOK perm none hfail).2.2 h⟩
  · intro livePing dialOK probeOK perm hperm hd0 hd1 hd2 hp2
    have hsearch := search none livePing dialOK probeOK perm (Or.inl rfl)
    have hmem2 : 2 ∈ perm := hperm.mem_iff.mpr (by decide)
    have hfind : ∃ x, perm.find? (fun i => dialOK i && probeOK i) = some x := by
      have hpre : (fun i => dialOK i && probeOK i) 2 = true := by
        show (dialOK 2 && probeOK 2) = true
        rw [hd2, hp2]
        rfl
      have h : (perm.find? (fun i => dialOK i && probeOK i)).isSome :=
        List.find?_isSome.mpr ⟨2, hmem2, hpre⟩
      exact Option.isSome_iff_exists.mp h
    obtain ⟨x, hx⟩ := hfind
    have hx2 : x = 2 := by
      have hpx := List.find?_some hx
      have hmx : x ∈ perm := List.mem_of_find?_eq_some hx
      have hx3 : x ∈ [0, 1, 2] := hperm.mem_iff.mp hmx
      fin_cases hx3 <;> simp_all
    subst hx2
    refine ⟨?_, ?_, fun lp2 dOK2 pOK2 perm2 hlp => reuse 2 lp2 dOK2 pOK2 perm2 hlp⟩
    · rw [hsearch, tryServers_conn, hx]
    · rw [hsearch]
      exact tryServers_err_none dialOK probeOK perm none ⟨2, hmem2, hd2, hp2⟩

/-- Witness for C7: three servers of which only index 2 dials, tried in
the permutation 2, 0, 1; then a reuse call on the established
connection. -/
theorem connectDestination_algorithm_witness :
    (connectDestination none (fun _ => true) (fun i => decide (i = 2))
      (fun _ => true) [2, 0, 1]).conn = some 2 ∧
    (connectDestination none (fun _ => true) (fun i => decide (i = 2))
      (fun _ => true) [2, 0, 1]).err = none ∧
    connectDestination (some 2) (fun _ => true) (fun i => decide (i = 2))
      (fun _ => true) [2, 0, 1] =
      { conn := some 2, err := none, dialed := [] } := by
  have T := connectDestination_algorithm.2.2 (fun _ => true)
    (fun i => decide (i = 2)) (fun _ => true) [2, 0, 1]
    (by decide) (by decide) (by decide) (by decide) (by decide)
  exact ⟨T.1, T.2.1,
    T.2.2 (fun _ => true) (fun i => decide (i = 2)) (fun _ => true) [2, 0, 1] rfl⟩

/-- C8: for every destination writer built the way NewWorker builds them,
the async (wait-for-ack) insert settings are applied iff the current
batch size is at or below that destination own MaximumBatchSize / K;
larger batches get no extra settings (default synchronous mode). -/
theorem flushSingle_async_mode (bf : FlowMessage) (K : Nat)
    (dw : DestinationWriter) (o : DestOracle) (fuel : Nat)
    (hA : dw.asyncSettings = mkAsyncSettings dw.config) :
    ((flushSingleDestination bf K dw o fuel).settings = dw.asyncSettings ↔
      bf.FlowCount ≤ dw.config.MaximumBatchSize / K) ∧
    (¬ bf.FlowCount ≤ dw.config.MaximumBatchSize / K →
      (flushSingleDestination bf K dw o fuel).settings = []) ∧
    (∀ dep : DestinationDependency,
      (mkDestinationWriter dep).asyncSettings = mkAsyncSettings dep.config) := by
  refine ⟨?_, ?_, fun dep => rfl⟩
  · simp only [flushSingleDestination]
    by_cases h : bf.FlowCount ≤ dw.config.MaximumBatchSize / K
    · simp [h]
    · simp [h, hA, mkAsyncSettings]
  · intro h
    simp only [flushSingleDestination]
    simp [h]

/-- Witness for C8: a two-record batch is at or below the main
destination async threshold (100 / 4) and above the azure destination
one (4 / 4), which therefore gets no extra settings. -/
theorem flushSingle_async_mode_witness :
    ((flushSingleDestination sampleWorker2.bf 4 sampleMainDW sampleOKOracle
        3).settings = sampleMainDW.asyncSettings ↔
      sampleWorker2.bf.FlowCount ≤ sampleMainDW.config.MaximumBatchSize / 4) ∧
    (flushSingleDestination sampleWorker2.bf 4 sampleAzureDW sampleOKOracle
      3).settings = [] :=
  ⟨(flushSingle_async_mode sampleWorker2.bf 4 sampleMainDW sampleOKOracle 3 rfl).1,
   (flushSingle_async_mode sampleWorker2.bf 4 sampleAzureDW sampleOKOracle 3
      rfl).2.1 (by decide)⟩

/-- C9: a fresh worker has the zero last-flush timestamp, so its first
FinalizeAndSend always satisfies the wait-time trigger — the saturating
time.Time.Sub against the zero time yields the maximal duration, at
least any positive MaximumWaitTime — and flushes, while the wait-time
metric observation is skipped because the last timestamp is zero; the
flush then sets the last-flush timestamp. -/
theorem newWorker_first_flush (dests : List DestinationDependency)
    (bf : FlowMessage) (K now nowAfter : Nat) (o : Nat → DestOracle)
    (order : List Nat) (fuel : Nat)
    (hpos : 1 ≤ (primaryConfigOf dests).MaximumWaitTime)
    (hle : (primaryConfigOf dests).MaximumWaitTime ≤ maxDuration)
    (hnow : maxDuration ≤ now) :
    (NewWorker dests bf).last = 0 ∧
    (FinalizeAndSend (NewWorker dests bf) K now nowAfter o order fuel).flushed =
      true ∧
    (FinalizeAndSend (NewWorker dests bf) K now nowAfter
      o order fuel).waitTimeObserved = false ∧
    (FinalizeAndSend (NewWorker dests bf) K now nowAfter
      o order fuel).worker.last = nowAfter := by
  have hcond : goSub now 0 ≥ (primaryConfigOf dests).MaximumWaitTime := by
    rw [goSub, Nat.sub_zero, Nat.min_eq_right hnow]
    exact hle
  refine ⟨rfl, ?_, ?_, ?_⟩ <;>
    · unfold FinalizeAndSend
      simp only [FlowMessage.Finalize]
      split_ifs with h1 h2 h3 <;> first | rfl | exact absurd (Or.inr hcond) h1

/-- Witness for C9 at a one-destination component, evaluated at a wall
clock at the saturation point. -/
theorem newWorker_first_flush_witness :
    (NewWorker [⟨"main", ["a"], 0, ⟨10, 50⟩⟩] ⟨[7]⟩).last = 0 ∧
    (FinalizeAndSend (NewWorker [⟨"main", ["a"], 0, ⟨10, 50⟩⟩] ⟨[7]⟩) 4
      maxDuration (maxDuration + 5) (fun _ => sampleOKOracle) [0] 3).flushed =
      true ∧
    (FinalizeAndSend (NewWorker [⟨"main", ["a"], 0, ⟨10, 50⟩⟩] ⟨[7]⟩) 4
      maxDuration (maxDuration + 5) (fun _ => sampleOKOracle) [0]
      3).waitTimeObserved = false ∧
    (FinalizeAndSend (NewWorker [⟨"main", ["a"], 0, ⟨10, 50⟩⟩] ⟨[7]⟩) 4
      maxDuration (maxDuration + 5) (fun _ => sampleOKOracle) [0]
      3).worker.last = maxDuration + 5 :=
  newWorker_first_flush [⟨"main", ["a"], 0, ⟨10, 50⟩⟩] ⟨[7]⟩ 4
    maxDuration (maxDuration + 5) (fun _ => sampleOKOracle) [0] 3
    (by decide) (by decide) (le_refl maxDuration)

/-- C10: with no live connection and an empty candidate server list,
connectDestination returns success (a nil error) while the connection
stays absent, so the send of that same attempt dereferences an absent
connection (a nil-pointer dereference in the Go code) before any write
is performed; and the error branch guarding the send is reachable only
when the permuted server list — hence the server list — is non-empty. -/
theorem connect_empty_server_list_nil_deref :
    (∀ (livePing dialOK probeOK : Nat → Bool),
      connectDestination none livePing dialOK probeOK [] =
        { conn := none, err := none, dialed := [] }) ∧
    (∀ (bf : FlowMessage) (K : Nat) (dw : DestinationWriter) (o : DestOracle)
        (fuel : Nat),
      dw.conn = none → dw.servers = [] → o.perm 1 = [] →
      (flushSingleDestination bf K dw o (fuel + 1)).outcome =
        RunOutcome.panicked ∧
      (flushSingleDestination bf K dw o (fuel + 1)).writeAttempts = 0) ∧
    (∀ (conn : Option Nat) (livePing dialOK probeOK : Nat → Bool)
        (perm : List Nat),
      (connectDestination conn livePing dialOK probeOK perm).err ≠ none →
      perm ≠ []) := by
  refine ⟨fun _ _ _ => rfl, ?_, ?_⟩
  · intro bf K dw o fuel hcn hsv hperm
    have hcap : ¬ (0 < dw.maxRetries ∧ dw.maxRetries = 0) := by omega
    unfold flushSingleDestination
    rw [retryLoop]
    simp [hcap, hcn, hperm, connectDestination, tryServers]
  · intro conn livePing dialOK probeOK perm h hp
    subst hp
    apply h
    cases conn with
    | none => rfl
    | some c =>
      by_cases hl : livePing c = true
      · simp [connectDestination, hl]
      · simp only [Bool.not_eq_true] at hl
        simp [connectDestination, hl, tryServers]

/-- Witness for C10 at a writer with an empty server list, plus the
guard-reachability consequence at a one-server failing dial. -/
theorem connect_empty_server_list_nil_deref_witness :
    connectDestination none (fun _ => true) (fun _ => true) (fun _ => true) [] =
      { conn := none, err := none, dialed := [] } ∧
    (flushSingleDestination ⟨[5, 6]⟩ 4
      (mkDestinationWriter ⟨"empty", [], 0, ⟨10, 50⟩⟩) sampleEmptyOracle
      (0 + 1)).outcome = RunOutcome.panicked ∧
    (flushSingleDestination ⟨[5, 6]⟩ 4
      (mkDestinationWriter ⟨"empty", [], 0, ⟨10, 50⟩⟩) sampleEmptyOracle
      (0 + 1)).writeAttempts = 0 ∧
    ([0] : List Nat) ≠ [] := by
  have h2 := connect_empty_server_list_nil_deref.2.1 ⟨[5, 6]⟩ 4
    (mkDestinationWriter ⟨"empty", [], 0, ⟨10, 50⟩⟩) sampleEmptyOracle 0
    rfl rfl rfl
  exact ⟨connect_empty_server_list_nil_deref.1 (fun _ => true) (fun _ => true)
      (fun _ => true), h2.1, h2.2,
    connect_empty_server_list_nil_deref.2.2 none (fun _ => true) (fun _ => false)
      (fun _ => true) [0] (by decide)⟩

end Akvorado
